import Mathlib

/-!
Shallow embedding of the FUSE passthrough I/O forwarding subsystem
(fs/fuse/passthrough.c): the setup/bind protocol, the read/write
forwarders with their synchronous and asynchronous paths, attribute
propagation, and release.  Kernel structures are modelled as plain
records; side effects (locking, allocation, forwarding, completion)
are made observable through explicit event traces, and reference
counting through an explicit counter passed in and out.
-/

namespace FusePassthrough

/-- Error number `ENOMEM` (returned negated, as in the kernel). -/
def ENOMEM : Int := 12

/-- Error number `EIOCBQUEUED`: an async iocb was queued and will
complete later via its `ki_complete` callback. -/
def EIOCBQUEUED : Int := 529

/-- Constant `FILESYSTEM_MAX_STACK_DEPTH` from `<linux/fs_stack.h>`. -/
def FILESYSTEM_MAX_STACK_DEPTH : Int := 2

/-- Opcode `FUSE_OPEN` from the FUSE uapi header. -/
def FUSE_OPEN : Nat := 14

/-- Opcode `FUSE_CREATE` from the FUSE uapi header. -/
def FUSE_CREATE : Nat := 35

/-- Value of `sizeof(struct fuse_open_out)` in bytes. -/
def fuse_open_out_size : Nat := 16

/-- The three timestamp fields of an inode (`i_atime`, `i_mtime`,
`i_ctime`), copied as a block by `fsstack_copy_attr_times`. -/
structure Timestamps where
  atime : Int
  mtime : Int
  ctime : Int
deriving Repr, DecidableEq

/-- The slice of `struct inode` the forwarder reads or writes:
cached size and timestamps. -/
structure Inode where
  size : Int
  times : Timestamps
deriving Repr, DecidableEq

/-- Model of `fsstack_copy_attr_times(dst, src)`: copy the timestamp block. -/
def fsstack_copy_attr_times (dst src : Inode) : Inode :=
  { dst with times := src.times }

/-- Model of `fsstack_copy_inode_size(dst, src)`: copy the size. -/
def fsstack_copy_inode_size (dst src : Inode) : Inode :=
  { dst with size := src.size }

/-- Model of `fuse_copyattr(dst_file, src_file, write)`: always copy times;
copy the size only when `write` is set. -/
def fuse_copyattr (dst src : Inode) (write : Bool) : Inode :=
  let dst := fsstack_copy_attr_times dst src
  if write then fsstack_copy_inode_size dst src else dst

/-- Observable side effects of the forwarding paths, in program order. -/
inductive Event
  /-- Step `inode_lock(fuse_inode)` -/
  | inodeLock
  /-- Step `inode_unlock(fuse_inode)` -/
  | inodeUnlock
  /-- Step `kmem_cache_zalloc` of a `fuse_aio_req`; `ok` records whether it
  succeeded -/
  | alloc (ok : Bool)
  /-- Step `call_read_iter` / `vfs_iocb_iter_read` against the backing file -/
  | backingRead
  /-- Step `call_write_iter` / `vfs_iocb_iter_write` against the backing file -/
  | backingWrite
  /-- Step `file_start_write(passthrough_filp)` -/
  | fileStartWrite
  /-- Step `file_end_write` on the backing file -/
  | fileEndWrite
  /-- Step `__sb_writers_release(passthrough_sb, SB_FREEZE_WRITE)` -/
  | sbWritersRelease
  /-- Step `__sb_writers_acquired(passthrough_sb, SB_FREEZE_WRITE)` -/
  | sbWritersAcquire
  /-- Step `fuse_copyattr(fuse_filp, passthrough_filp, write)` -/
  | copyattr (write : Bool)
  /-- Step `iocb_fuse->ki_pos = iocb.ki_pos` -/
  | copyPos
  /-- Step `kmem_cache_free` of the `fuse_aio_req` -/
  | freeReq
  /-- Step `iocb_fuse->ki_complete(iocb_fuse, res, res2)` -/
  | kiComplete (res res2 : Int)
deriving Repr, DecidableEq

/-- Is an event an invocation of the caller's completion callback? -/
def Event.isComplete : Event → Bool
  | .kiComplete _ _ => true
  | _ => false

/-- The mutable world a forwarded operation touches: the virtual
(fuse) file's inode, the backing file's inode, the caller's iocb
position `iocb_fuse->ki_pos`, and whether the exclusive lock on the
virtual file's inode is currently held. -/
structure St where
  fuseInode : Inode
  backingInode : Inode
  kiPosFuse : Int
  fuseLockHeld : Bool
deriving Repr, DecidableEq

/-- The private asynchronous completion context `struct fuse_aio_req`,
reduced to what its handlers read: whether the cloned iocb carries
`IOCB_WRITE`, and the backing iocb's final position `iocb.ki_pos`. -/
structure AioReq where
  isWrite : Bool
  kiPos : Int
deriving Repr, DecidableEq

/-- Outcome of the call into the backing file: the returned byte count
or negative errno (possibly `-EIOCBQUEUED`), and the backing iocb's
position after the call. -/
structure BackingOutcome where
  ret : Int
  newPos : Int
deriving Repr, DecidableEq

/-- Result of a forwarded read or write: return value, final world
state, and the trace of side effects performed. -/
structure IterResult where
  ret : Int
  st : St
  events : List Event
deriving Repr, DecidableEq

/-- Model of `fuse_aio_cleanup_handler(aio_req)`: for a write, re-acquire the
frozen-writer accounting, end the write on the backing file and
propagate attributes (times and size) to the fuse inode; then copy the
backing iocb's final position back to the caller's iocb and free the
private context. -/
def fuse_aio_cleanup_handler (st : St) (req : AioReq) : St × List Event :=
  let (st, evs) :=
    if req.isWrite then
      ({ st with fuseInode := fuse_copyattr st.fuseInode st.backingInode true },
       [Event.sbWritersAcquire, Event.fileEndWrite, Event.copyattr true])
    else (st, [])
  ({ st with kiPosFuse := req.kiPos }, evs ++ [Event.copyPos, Event.freeReq])

/-- Model of `fuse_aio_rw_complete(iocb, res, res2)`: run the cleanup handler,
then invoke the original caller's completion with the backing result. -/
def fuse_aio_rw_complete (st : St) (req : AioReq) (res res2 : Int) :
    St × List Event :=
  let (st, evs) := fuse_aio_cleanup_handler st req
  (st, evs ++ [Event.kiComplete res res2])

/-- Model of `fuse_passthrough_read_iter(iocb_fuse, iter)`.  `iterCount` is
`iov_iter_count(iter)`, `isSync` is `is_sync_kiocb(iocb_fuse)`,
`allocOk` tells whether `kmem_cache_zalloc` would succeed, and `bio`
is the backing file's response to the forwarded read. -/
def fuse_passthrough_read_iter (st : St) (iterCount : Nat) (isSync : Bool)
    (allocOk : Bool) (bio : BackingOutcome) : IterResult :=
  -- the shared tail after the if/else: fuse_copyattr(fuse_filp, passthrough_filp, false)
  let finish : Int → St → List Event → IterResult := fun ret st evs =>
    { ret := ret,
      st := { st with fuseInode := fuse_copyattr st.fuseInode st.backingInode false },
      events := evs ++ [Event.copyattr false] }
  if iterCount = 0 then
    { ret := 0, st := st, events := [] }
  else if isSync then
    finish bio.ret { st with kiPosFuse := bio.newPos }
      [Event.backingRead, Event.copyPos]
  else if ¬ allocOk then
    -- early return: -ENOMEM without running the shared tail
    { ret := -ENOMEM, st := st, events := [Event.alloc false] }
  else if bio.ret ≠ -EIOCBQUEUED then
    let (st, cevs) :=
      fuse_aio_cleanup_handler st { isWrite := false, kiPos := bio.newPos }
    finish bio.ret st ([Event.alloc true, Event.backingRead] ++ cevs)
  else
    finish bio.ret st [Event.alloc true, Event.backingRead]

/-- Model of `fuse_passthrough_write_iter(iocb_fuse, iter)`.  Takes the
exclusive lock on the fuse inode, forwards the write synchronously or
asynchronously, and unlocks before returning — except that the async
allocation-failure path returns `-ENOMEM` directly, without
unlocking. -/
def fuse_passthrough_write_iter (st : St) (iterCount : Nat) (isSync : Bool)
    (allocOk : Bool) (bio : BackingOutcome) : IterResult :=
  if iterCount = 0 then
    { ret := 0, st := st, events := [] }
  else
    let st := { st with fuseLockHeld := true }
    if isSync then
      let st := { st with kiPosFuse := bio.newPos }
      let st := { st with fuseInode := fuse_copyattr st.fuseInode st.backingInode true }
      { ret := bio.ret,
        st := { st with fuseLockHeld := false },
        events := [Event.inodeLock, Event.fileStartWrite, Event.backingWrite,
                   Event.fileEndWrite, Event.copyPos, Event.copyattr true,
                   Event.inodeUnlock] }
    else
      if allocOk then
        let evs := [Event.inodeLock, Event.alloc true, Event.fileStartWrite,
                    Event.sbWritersRelease, Event.backingWrite]
        if bio.ret ≠ -EIOCBQUEUED then
          let (st, cevs) :=
            fuse_aio_cleanup_handler st { isWrite := true, kiPos := bio.newPos }
          { ret := bio.ret,
            st := { st with fuseLockHeld := false },
            events := evs ++ cevs ++ [Event.inodeUnlock] }
        else
          { ret := bio.ret,
            st := { st with fuseLockHeld := false },
            events := evs ++ [Event.inodeUnlock] }
      else
        { ret := -ENOMEM, st := st,
          events := [Event.inodeLock, Event.alloc false] }

/-- The capability and stacking-depth attributes of a candidate
backing file: whether its `f_op` has `read_iter` and `write_iter`,
and its superblock's `s_stack_depth`. -/
structure BackingFile where
  hasReadIter : Bool
  hasWriteIter : Bool
  sStackDepth : Int
deriving Repr, DecidableEq

/-- Model of `fget`: take a reference on the candidate file. -/
def fget_count (rc : Nat) : Nat := rc + 1

/-- Model of `fput`: drop a reference on the candidate file. -/
def fput_count (rc : Nat) : Nat := rc - 1

/-- Which `pr_err` diagnostic a failing setup emitted. -/
inductive SetupErr
  /-- "invalid file descriptor for passthrough" -/
  | invalidFd
  /-- "passthrough file misses file operations" -/
  | unsupportedFile
  /-- "maximum fs stacking depth exceeded for passthrough" -/
  | depthExceeded
deriving Repr, DecidableEq

/-- Observable steps of `fuse_passthrough_setup`, in program order. -/
inductive SetupEv
  /-- Step `fget(open_out->fd)` succeeded, taking a reference -/
  | fgetEv
  /-- the `read_iter`/`write_iter` capability test, with its outcome -/
  | capCheck (ok : Bool)
  /-- the stacking-depth test, with its outcome -/
  | depthCheck (ok : Bool)
  /-- a `pr_err` diagnostic -/
  | prErr (e : SetupErr)
  /-- Step `fput(passthrough_filp)` -/
  | fputEv
  /-- Step `req->passthrough_filp = passthrough_filp` -/
  | attach
deriving Repr, DecidableEq

/-- The slice of `struct fuse_req` that `fuse_passthrough_setup`
inspects: the request opcode, the reply's argument count, the size of
its last output argument, and the `fuse_open_out` payload (whether
`FOPEN_PASSTHROUGH` is set in `open_flags`, and the descriptor). -/
structure SetupReq where
  opcode : Nat
  outNumargs : Nat
  outArgSize : Nat
  fopenPassthrough : Bool
  fd : Nat
deriving Repr, DecidableEq

/-- Result of `fuse_passthrough_setup`: return value, the reference
attached to `req->passthrough_filp` (if any), the candidate file's
reference count afterwards, and the trace of steps taken. -/
structure SetupResult where
  ret : Int
  passthrough_filp : Option BackingFile
  refcount : Nat
  events : List SetupEv
deriving Repr, DecidableEq

/-- Model of `fuse_passthrough_setup(fc, req)`.  `passthroughEnabled` is
`fc->passthrough`, `fdTable` models `fget` resolution of descriptors,
and `rc` is the candidate file's reference count before the call. -/
def fuse_passthrough_setup (passthroughEnabled : Bool) (req : SetupReq)
    (fdTable : Nat → Option BackingFile) (rc : Nat) : SetupResult :=
  if ¬ passthroughEnabled then
    { ret := 0, passthrough_filp := none, refcount := rc, events := [] }
  else if ¬ ((req.opcode = FUSE_OPEN ∧ req.outNumargs = 1) ∨
             (req.opcode = FUSE_CREATE ∧ req.outNumargs = 2)) then
    { ret := 0, passthrough_filp := none, refcount := rc, events := [] }
  else if req.outArgSize ≠ fuse_open_out_size then
    { ret := 0, passthrough_filp := none, refcount := rc, events := [] }
  else if ¬ req.fopenPassthrough then
    { ret := 0, passthrough_filp := none, refcount := rc, events := [] }
  else
    match fdTable req.fd with
    | none =>
        { ret := -1, passthrough_filp := none, refcount := rc,
          events := [SetupEv.prErr SetupErr.invalidFd] }
    | some f =>
        let rc := fget_count rc
        if ¬ f.hasReadIter ∨ ¬ f.hasWriteIter then
          { ret := -1, passthrough_filp := none, refcount := fput_count rc,
            events := [SetupEv.fgetEv, SetupEv.capCheck false,
                       SetupEv.prErr SetupErr.unsupportedFile, SetupEv.fputEv] }
        else
          let fs_stack_depth := f.sStackDepth + 1
          if fs_stack_depth > FILESYSTEM_MAX_STACK_DEPTH then
            { ret := -1, passthrough_filp := none, refcount := fput_count rc,
              events := [SetupEv.fgetEv, SetupEv.capCheck true,
                         SetupEv.depthCheck false,
                         SetupEv.prErr SetupErr.depthExceeded, SetupEv.fputEv] }
          else
            { ret := 0, passthrough_filp := some f, refcount := rc,
              events := [SetupEv.fgetEv, SetupEv.capCheck true,
                         SetupEv.depthCheck true, SetupEv.attach] }

/-- Model of `fuse_passthrough_release(ff)`: if a backing reference is held,
drop it and clear the slot; otherwise do nothing.  The pair is the
per-open slot and the backing file's reference count. -/
def fuse_passthrough_release (slot : Option BackingFile) (rc : Nat) :
    Option BackingFile × Nat :=
  match slot with
  | some _ => (none, fput_count rc)
  | none => (slot, rc)


/-! ## Concrete states used by closed theorems -/

/-- A world state with distinct fuse/backing attributes, used to make
mutations observable. -/
def stA : St :=
  { fuseInode := { size := 0, times := { atime := 0, mtime := 0, ctime := 0 } },
    backingInode := { size := 5, times := { atime := 1, mtime := 2, ctime := 3 } },
    kiPosFuse := 0, fuseLockHeld := false }

/-- A descriptor table resolving every descriptor to a fully capable
backing file of stacking depth 0. -/
def fdtA : Nat → Option BackingFile :=
  fun _ => some { hasReadIter := true, hasWriteIter := true, sStackDepth := 0 }

/-! ## Claims -/

/-- C6: a zero-length read or write returns 0 immediately: no
forwarding, no allocation, no lock, and the world state (virtual
file's size and timestamps included) is unchanged — the event trace is
empty. -/
theorem C6_zero_length_noop (st : St) (isSync allocOk : Bool)
    (bio : BackingOutcome) :
    fuse_passthrough_read_iter st 0 isSync allocOk bio =
      { ret := 0, st := st, events := [] } ∧
    fuse_passthrough_write_iter st 0 isSync allocOk bio =
      { ret := 0, st := st, events := [] } :=
  ⟨rfl, rfl⟩

/-- C7: release is idempotent: with no backing reference bound it does
nothing; with one bound it drops exactly one reference and clears the
slot; and a second release after a first is always a no-op (two calls
have the same effect as one). -/
theorem C7_release_idempotent (slot : Option BackingFile) (rc : Nat)
    (f : BackingFile) :
    fuse_passthrough_release none rc = (none, rc) ∧
    fuse_passthrough_release (some f) rc = (none, fput_count rc) ∧
    fuse_passthrough_release (fuse_passthrough_release slot rc).1
        (fuse_passthrough_release slot rc).2 =
      fuse_passthrough_release slot rc := by
  refine ⟨rfl, rfl, ?_⟩
  cases slot <;> rfl

/-- C2: `fuse_aio_rw_complete` invokes the caller's completion exactly
once, as the last step, and only after the private context has copied
the backing iocb's final position back to the caller's iocb, run
attribute propagation when the operation was a write, and been
freed. -/
theorem C2_async_completion_once (st : St) (b : Bool) (p res res2 : Int) :
    (fuse_aio_rw_complete st ⟨b, p⟩ res res2).2.countP Event.isComplete = 1 ∧
    (fuse_aio_rw_complete st ⟨b, p⟩ res res2).2.getLast? =
      some (Event.kiComplete res res2) ∧
    Event.copyPos ∈ (fuse_aio_rw_complete st ⟨b, p⟩ res res2).2.dropLast ∧
    Event.freeReq ∈ (fuse_aio_rw_complete st ⟨b, p⟩ res res2).2.dropLast ∧
    (fuse_aio_rw_complete st ⟨b, p⟩ res res2).1.kiPosFuse = p ∧
    (b = true →
      Event.copyattr true ∈ (fuse_aio_rw_complete st ⟨b, p⟩ res res2).2.dropLast ∧
      (fuse_aio_rw_complete st ⟨b, p⟩ res res2).1.fuseInode =
        fuse_copyattr st.fuseInode st.backingInode true) := by
  cases b <;>
    simp [fuse_aio_rw_complete, fuse_aio_cleanup_handler, Event.isComplete,
      List.countP_cons, List.countP_nil, List.getLast?, List.dropLast]

/-- Witness for C2 at a concrete write completion. -/
theorem C2_async_completion_once_witness :
    (fuse_aio_rw_complete stA ⟨true, 7⟩ 3 0).2.countP Event.isComplete = 1 ∧
    (fuse_aio_rw_complete stA ⟨true, 7⟩ 3 0).2.getLast? =
      some (Event.kiComplete 3 0) ∧
    Event.copyPos ∈ (fuse_aio_rw_complete stA ⟨true, 7⟩ 3 0).2.dropLast ∧
    Event.freeReq ∈ (fuse_aio_rw_complete stA ⟨true, 7⟩ 3 0).2.dropLast ∧
    (fuse_aio_rw_complete stA ⟨true, 7⟩ 3 0).1.kiPosFuse = 7 ∧
    Event.copyattr true ∈ (fuse_aio_rw_complete stA ⟨true, 7⟩ 3 0).2.dropLast ∧
    (fuse_aio_rw_complete stA ⟨true, 7⟩ 3 0).1.fuseInode =
      fuse_copyattr stA.fuseInode stA.backingInode true := by
  have h := C2_async_completion_once stA true 7 3 0
  exact ⟨h.1, h.2.1, h.2.2.1, h.2.2.2.1, h.2.2.2.2.1,
    (h.2.2.2.2.2 rfl).1, (h.2.2.2.2.2 rfl).2⟩

/-- C1 (code evaluated at the failing input): an asynchronous write
with a non-empty request whose private-context allocation fails
returns `-ENOMEM` with the exclusive lock on the virtual file's inode
still held: the trace records `inode_lock` but no `inode_unlock`. -/
theorem C1_enomem_leaves_lock_held :
    (fuse_passthrough_write_iter stA 1 false false ⟨0, 0⟩).ret = -ENOMEM ∧
    (fuse_passthrough_write_iter stA 1 false false ⟨0, 0⟩).st.fuseLockHeld = true ∧
    Event.inodeLock ∈ (fuse_passthrough_write_iter stA 1 false false ⟨0, 0⟩).events ∧
    Event.inodeUnlock ∉ (fuse_passthrough_write_iter stA 1 false false ⟨0, 0⟩).events := by
  decide

/-- C5 counterexample: a synchronous forwarded read DOES mutate the
virtual file's inode — it copies the backing file's timestamps onto
it — refuting "never mutates the virtual file's inode". -/
theorem C5_read_mutates_virtual_times :
    (fuse_passthrough_read_iter stA 1 true true ⟨1, 1⟩).st.fuseInode ≠
      stA.fuseInode ∧
    (fuse_passthrough_read_iter stA 1 true true ⟨1, 1⟩).st.fuseInode.times =
      stA.backingInode.times := by
  decide

/-- C5 amended: on every path of the forwarded read the virtual
file's cached size is unchanged (read-path propagation copies
timestamps only, never the size). -/
theorem C5_read_never_mutates_size (st : St) (iterCount : Nat)
    (isSync allocOk : Bool) (bio : BackingOutcome) :
    (fuse_passthrough_read_iter st iterCount isSync allocOk bio).st.fuseInode.size =
      st.fuseInode.size := by
  unfold fuse_passthrough_read_iter
  split_ifs <;>
    simp [fuse_copyattr, fsstack_copy_attr_times, fsstack_copy_inode_size,
      fuse_aio_cleanup_handler]

/-- C10: when the connection's passthrough feature is off, the
opcode/output-argument shape is not an open or create reply, the
open-out argument size is wrong, or the passthrough open flag is
absent, setup returns success (0) with the backing-file slot left
`none`, the candidate's reference count untouched, and no step taken:
silent fallback to non-passthrough mode, never an error. -/
theorem C10_silent_fallback (enabled : Bool) (req : SetupReq)
    (fdt : Nat → Option BackingFile) (rc : Nat)
    (h : enabled = false ∨
         ¬ ((req.opcode = FUSE_OPEN ∧ req.outNumargs = 1) ∨
            (req.opcode = FUSE_CREATE ∧ req.outNumargs = 2)) ∨
         req.outArgSize ≠ fuse_open_out_size ∨
         req.fopenPassthrough = false) :
    fuse_passthrough_setup enabled req fdt rc =
      { ret := 0, passthrough_filp := none, refcount := rc, events := [] } := by
  rcases h with h | h | h | h
  · subst h; rfl
  · cases enabled
    · rfl
    · unfold fuse_passthrough_setup
      rw [if_neg (not_not_intro rfl), if_pos h]
  · cases enabled
    · rfl
    · by_cases hs : (req.opcode = FUSE_OPEN ∧ req.outNumargs = 1) ∨
        (req.opcode = FUSE_CREATE ∧ req.outNumargs = 2)
      · unfold fuse_passthrough_setup
        rw [if_neg (not_not_intro rfl), if_neg (not_not_intro hs), if_pos h]
      · unfold fuse_passthrough_setup
        rw [if_neg (not_not_intro rfl), if_pos hs]
  · cases enabled
    · rfl
    · by_cases hs : (req.opcode = FUSE_OPEN ∧ req.outNumargs = 1) ∨
        (req.opcode = FUSE_CREATE ∧ req.outNumargs = 2)
      · by_cases hz : req.outArgSize = fuse_open_out_size
        · unfold fuse_passthrough_setup
          rw [if_neg (not_not_intro rfl), if_neg (not_not_intro hs),
            if_neg (not_not_intro hz), if_pos (by simp [h])]
        · unfold fuse_passthrough_setup
          rw [if_neg (not_not_intro rfl), if_neg (not_not_intro hs), if_pos hz]
      · unfold fuse_passthrough_setup
        rw [if_neg (not_not_intro rfl), if_pos hs]

/-- Witness for C10: a disabled connection falls back silently. -/
theorem C10_silent_fallback_witness :
    fuse_passthrough_setup false
        { opcode := FUSE_OPEN, outNumargs := 1,
          outArgSize := fuse_open_out_size, fopenPassthrough := true, fd := 3 }
        fdtA 4 =
      { ret := 0, passthrough_filp := none, refcount := 4, events := [] } :=
  C10_silent_fallback false
    { opcode := FUSE_OPEN, outNumargs := 1,
      outArgSize := fuse_open_out_size, fopenPassthrough := true, fd := 3 }
    fdtA 4 (Or.inl rfl)

/-- C9 counterexample: with passthrough enabled and a resolvable
descriptor, a request whose opcode is not an open/create reply (here
opcode 1) makes setup return 0 — success with no reference attached —
not a failure with `InvalidOperation` as the claim states. -/
theorem C9_non_open_is_silent_success :
    (fuse_passthrough_setup true
        { opcode := 1, outNumargs := 1, outArgSize := fuse_open_out_size,
          fopenPassthrough := true, fd := 3 } fdtA 4).ret = 0 ∧
    (fuse_passthrough_setup true
        { opcode := 1, outNumargs := 1, outArgSize := fuse_open_out_size,
          fopenPassthrough := true, fd := 3 } fdtA 4).passthrough_filp = none ∧
    (fuse_passthrough_setup true
        { opcode := 1, outNumargs := 1, outArgSize := fuse_open_out_size,
          fopenPassthrough := true, fd := 3 } fdtA 4).events = [] := by
  refine ⟨rfl, rfl, rfl⟩

/-- C9 amended: for every setup request whose opcode/argument shape is
not an open or create reply, setup returns success (0) with no backing
reference attached and the candidate's reference count unchanged —
the virtual file silently falls back to non-passthrough mode. -/
theorem C9_amended_non_open_no_attach (req : SetupReq)
    (fdt : Nat → Option BackingFile) (rc : Nat)
    (h : ¬ ((req.opcode = FUSE_OPEN ∧ req.outNumargs = 1) ∨
            (req.opcode = FUSE_CREATE ∧ req.outNumargs = 2))) :
    fuse_passthrough_setup true req fdt rc =
      { ret := 0, passthrough_filp := none, refcount := rc, events := [] } := by
  unfold fuse_passthrough_setup
  simp [h]

/-- Witness for the amended C9 at a concrete non-open request. -/
theorem C9_amended_non_open_no_attach_witness :
    fuse_passthrough_setup true
        { opcode := 2, outNumargs := 1, outArgSize := fuse_open_out_size,
          fopenPassthrough := true, fd := 3 } fdtA 4 =
      { ret := 0, passthrough_filp := none, refcount := 4, events := [] } :=
  C9_amended_non_open_no_attach
    { opcode := 2, outNumargs := 1, outArgSize := fuse_open_out_size,
      fopenPassthrough := true, fd := 3 }
    fdtA 4 (by decide)

/-- C3: a resolvable candidate lacking `read_iter` or `write_iter`
makes setup fail (return -1, the "misses file operations" diagnostic),
release the handle taken during validation (final reference count
equals the initial one), and attach no backing reference. -/
theorem C3_unsupported_backing_file (req : SetupReq)
    (fdt : Nat → Option BackingFile) (rc : Nat) (f : BackingFile)
    (hshape : (req.opcode = FUSE_OPEN ∧ req.outNumargs = 1) ∨
              (req.opcode = FUSE_CREATE ∧ req.outNumargs = 2))
    (hsize : req.outArgSize = fuse_open_out_size)
    (hflag : req.fopenPassthrough = true)
    (hfd : fdt req.fd = some f)
    (hcap : f.hasReadIter = false ∨ f.hasWriteIter = false) :
    fuse_passthrough_setup true req fdt rc =
      { ret := -1, passthrough_filp := none, refcount := rc,
        events := [SetupEv.fgetEv, SetupEv.capCheck false,
                   SetupEv.prErr SetupErr.unsupportedFile, SetupEv.fputEv] } := by
  unfold fuse_passthrough_setup
  rcases hcap with hcap | hcap <;>
    simp [hshape, hsize, hflag, hfd, hcap, fget_count, fput_count]

/-- Witness for C3: a backing file with no `write_iter`. -/
theorem C3_unsupported_backing_file_witness :
    fuse_passthrough_setup true
        { opcode := FUSE_OPEN, outNumargs := 1,
          outArgSize := fuse_open_out_size, fopenPassthrough := true, fd := 3 }
        (fun _ => some { hasReadIter := true, hasWriteIter := false,
                         sStackDepth := 0 }) 4 =
      { ret := -1, passthrough_filp := none, refcount := 4,
        events := [SetupEv.fgetEv, SetupEv.capCheck false,
                   SetupEv.prErr SetupErr.unsupportedFile, SetupEv.fputEv] } :=
  C3_unsupported_backing_file
    { opcode := FUSE_OPEN, outNumargs := 1,
      outArgSize := fuse_open_out_size, fopenPassthrough := true, fd := 3 }
    (fun _ => some { hasReadIter := true, hasWriteIter := false, sStackDepth := 0 })
    4 { hasReadIter := true, hasWriteIter := false, sStackDepth := 0 }
    (Or.inl ⟨rfl, rfl⟩) rfl rfl rfl (Or.inr rfl)

/-- C4: with both capabilities present, a candidate whose computed
stacking depth (backing depth + 1) exceeds the maximum makes setup
fail (return -1, the depth diagnostic), release the handle (reference
count restored), and attach nothing; the trace shows the depth check
strictly after the capability check and no attach step. -/
theorem C4_stacking_depth_guard (req : SetupReq)
    (fdt : Nat → Option BackingFile) (rc : Nat) (f : BackingFile)
    (hshape : (req.opcode = FUSE_OPEN ∧ req.outNumargs = 1) ∨
              (req.opcode = FUSE_CREATE ∧ req.outNumargs = 2))
    (hsize : req.outArgSize = fuse_open_out_size)
    (hflag : req.fopenPassthrough = true)
    (hfd : fdt req.fd = some f)
    (hr : f.hasReadIter = true) (hw : f.hasWriteIter = true)
    (hdepth : f.sStackDepth + 1 > FILESYSTEM_MAX_STACK_DEPTH) :
    fuse_passthrough_setup true req fdt rc =
      { ret := -1, passthrough_filp := none, refcount := rc,
        events := [SetupEv.fgetEv, SetupEv.capCheck true,
                   SetupEv.depthCheck false,
                   SetupEv.prErr SetupErr.depthExceeded, SetupEv.fputEv] } ∧
    SetupEv.attach ∉ (fuse_passthrough_setup true req fdt rc).events := by
  have heq : fuse_passthrough_setup true req fdt rc =
      { ret := -1, passthrough_filp := none, refcount := rc,
        events := [SetupEv.fgetEv, SetupEv.capCheck true,
                   SetupEv.depthCheck false,
                   SetupEv.prErr SetupErr.depthExceeded, SetupEv.fputEv] } := by
    unfold fuse_passthrough_setup
    simp [hshape, hsize, hflag, hfd, hr, hw, hdepth, fget_count, fput_count]
  refine ⟨heq, ?_⟩
  rw [heq]
  simp

/-- Witness for C4: a backing filesystem already at depth 2. -/
theorem C4_stacking_depth_guard_witness :
    fuse_passthrough_setup true
        { opcode := FUSE_CREATE, outNumargs := 2,
          outArgSize := fuse_open_out_size, fopenPassthrough := true, fd := 5 }
        (fun _ => some { hasReadIter := true, hasWriteIter := true,
                         sStackDepth := 2 }) 9 =
      { ret := -1, passthrough_filp := none, refcount := 9,
        events := [SetupEv.fgetEv, SetupEv.capCheck true,
                   SetupEv.depthCheck false,
                   SetupEv.prErr SetupErr.depthExceeded, SetupEv.fputEv] } ∧
    SetupEv.attach ∉ (fuse_passthrough_setup true
        { opcode := FUSE_CREATE, outNumargs := 2,
          outArgSize := fuse_open_out_size, fopenPassthrough := true, fd := 5 }
        (fun _ => some { hasReadIter := true, hasWriteIter := true,
                         sStackDepth := 2 }) 9).events :=
  C4_stacking_depth_guard
    { opcode := FUSE_CREATE, outNumargs := 2,
      outArgSize := fuse_open_out_size, fopenPassthrough := true, fd := 5 }
    (fun _ => some { hasReadIter := true, hasWriteIter := true, sStackDepth := 2 })
    9 { hasReadIter := true, hasWriteIter := true, sStackDepth := 2 }
    (Or.inr ⟨rfl, rfl⟩) rfl rfl rfl rfl rfl (by decide)

/-- C8: a forwarded write that completes with a positive byte count
propagates attributes before returning (synchronous path and the
asynchronous path that completes inline), setting the virtual inode's
size and timestamps from the backing inode; and on the queued
asynchronous path the completion handler performs the same
propagation before the caller's completion is invoked (the
`copyattr` step precedes the final `ki_complete` step). -/
theorem C8_write_propagates_attrs (st st2 : St) (c : Nat) (b : Bool)
    (bio : BackingOutcome) (p res res2 : Int)
    (hc : c ≠ 0) (hpos : 0 < bio.ret) :
    (fuse_passthrough_write_iter st c b true bio).st.fuseInode =
      fuse_copyattr st.fuseInode st.backingInode true ∧
    (fuse_passthrough_write_iter st c b true bio).st.fuseInode.size =
      st.backingInode.size ∧
    (fuse_passthrough_write_iter st c b true bio).st.fuseInode.times =
      st.backingInode.times ∧
    Event.copyattr true ∈ (fuse_passthrough_write_iter st c b true bio).events ∧
    (fuse_aio_rw_complete st2 ⟨true, p⟩ res res2).1.fuseInode.size =
      st2.backingInode.size ∧
    Event.copyattr true ∈
      (fuse_aio_rw_complete st2 ⟨true, p⟩ res res2).2.dropLast := by
  have hq : bio.ret ≠ -EIOCBQUEUED := by
    intro hEq
    rw [hEq] at hpos
    norm_num [EIOCBQUEUED] at hpos
  cases b <;>
    simp [fuse_passthrough_write_iter, fuse_aio_rw_complete,
      fuse_aio_cleanup_handler, fuse_copyattr, fsstack_copy_attr_times,
      fsstack_copy_inode_size, hc, hq, List.dropLast]

/-- Witness for C8: a synchronous write of 3 bytes. -/
theorem C8_write_propagates_attrs_witness :
    (fuse_passthrough_write_iter stA 1 true true ⟨3, 3⟩).st.fuseInode =
      fuse_copyattr stA.fuseInode stA.backingInode true ∧
    (fuse_passthrough_write_iter stA 1 true true ⟨3, 3⟩).st.fuseInode.size =
      stA.backingInode.size ∧
    (fuse_passthrough_write_iter stA 1 true true ⟨3, 3⟩).st.fuseInode.times =
      stA.backingInode.times ∧
    Event.copyattr true ∈ (fuse_passthrough_write_iter stA 1 true true ⟨3, 3⟩).events ∧
    (fuse_aio_rw_complete stA ⟨true, 3⟩ 3 0).1.fuseInode.size =
      stA.backingInode.size ∧
    Event.copyattr true ∈ (fuse_aio_rw_complete stA ⟨true, 3⟩ 3 0).2.dropLast :=
  C8_write_propagates_attrs stA stA 1 true ⟨3, 3⟩ 3 3 0 (by decide) (by decide)

end FusePassthrough
